import Mathlib

/-!
Shallow embedding of the flight-route enrichment subsystem of
`digital-signage-screen` (`src/app.py`), together with theorems settling the
frozen claims about it.

Modelling conventions:
* Machine time is modelled as `Int` seconds since an arbitrary epoch.
  Python `datetime` subtraction yields a `timedelta`; `.days` is floor
  division of the total seconds by 86400 (`Int.fdiv`), and
  `.total_seconds() / 3600 < 24` is exactly `seconds < 24 * 3600`
  (real division by a positive constant preserves the strict inequality,
  so the exact-integer model is faithful up to float rounding, which is
  negligible at these magnitudes).
* A cache-entry timestamp, as stored in the JSON file, is either absent,
  a parseable ISO string (modelled by its parsed value `Timestamp.valid t`)
  or an unparseable value (`Timestamp.invalid`); `datetime.fromisoformat`
  raising is the `invalid` case.
* The JSON route mapping is modelled as an association list; Python dict
  assignment `cache[k] = e` is `Cache.set`, membership plus indexing is
  `List.lookup`.
* HTTP calls are modelled by passing the response as an explicit argument;
  a `Bool` component of the result records whether the network call was
  performed. Exceptions caught by broad `except` clauses are folded into
  the corresponding failure constructors.
* Strings are the ASCII fragment; `str.isalpha`/`str.strip` agree with
  `Char.isAlpha`/`String.trim` there. Python `None` and `''` are conflated
  where the source only ever tests truthiness and coalesces with `or ''`.
-/

/-- A stored `last_seen` value: a parseable timestamp or an unparseable one. -/
inductive Timestamp where
  | valid (t : Int)
  | invalid
deriving DecidableEq, Repr

/-- One value of the persisted route mapping (`flight_routes_cache.json`).
Absent `from`/`to` fields and `''` are conflated (the source reads them with
`.get(key, '')`); absent `not_found` and `false` likewise. -/
structure RouteEntry where
  from_airport : String
  to_airport : String
  last_seen : Option Timestamp
  not_found : Bool
deriving DecidableEq, Repr

/-- The in-memory route cache: a Python dict modelled as an association list
whose first binding for a key is its value. -/
abbrev Cache := List (String × RouteEntry)

/-- Python dict assignment `cache[k] = e`: the new binding shadows and removes
any previous binding for `k`. -/
def Cache.set (c : Cache) (k : String) (e : RouteEntry) : Cache :=
  (k, e) :: c.filter (fun p => p.1 != k)

/-- Python `(datetime.now() - last_seen).days`: floor division of the age in
seconds by 86400 (`timedelta` normalises with `0 <= seconds < 86400`). -/
def age_days (now last_seen : Int) : Int :=
  (now - last_seen).fdiv 86400

/-- The derived fallback key computed inside `get_route_from_cache`
(src/app.py line 461): `''.join(filter(str.isalpha, callsign[:3]))`, the
alphabetic characters among the first three characters of the callsign. -/
def airline_code (callsign : String) : String :=
  ⟨(callsign.toList.take 3).filter Char.isAlpha⟩

/-- Python `str.strip()` with no argument: drop leading and trailing
whitespace (stated on the character list so that it evaluates by kernel
reduction). Agrees with `String.trim` on ASCII input. -/
def py_strip (s : String) : String :=
  ⟨((s.toList.dropWhile Char.isWhitespace).reverse.dropWhile
      Char.isWhitespace).reverse⟩

/-- Python `str.lower()`: lowercase each character (ASCII fragment). -/
def py_lower (s : String) : String :=
  ⟨s.toList.map Char.toLower⟩

/-- Modelled from the spec: the spec describes the derived fallback key as the
leading alphabetic run of the key, capped at 3 characters. Stated for
comparison with `airline_code`, the key the source actually derives. -/
def spec_leading_alpha (s : String) : String :=
  ⟨(s.toList.takeWhile Char.isAlpha).take 3⟩

/-- `get_route_from_cache(callsign, cache, cache_days)` (src/app.py 439-474).
Returns `(from, to, is_valid)`. In the exact-match branch a parseable
timestamp older than `cache_days` returns `is_valid = false`; in the
airline-code fallback branch the corresponding `if` has no `else`, so control
falls through to the unconditional `is_valid = true` return. -/
def get_route_from_cache (callsign : String) (cache : Cache) (now : Int)
    (cache_days : Int) : String × String × Bool :=
  if callsign = "" then ("", "", false)
  else
    match List.lookup callsign cache with
    | some route =>
      match route.last_seen with
      | some (Timestamp.valid ls) =>
        if age_days now ls < cache_days then
          (route.from_airport, route.to_airport, true)
        else
          (route.from_airport, route.to_airport, false)
      | some Timestamp.invalid => (route.from_airport, route.to_airport, true)
      | none => (route.from_airport, route.to_airport, true)
    | none =>
      let code := airline_code callsign
      if code = "" then ("", "", false)
      else
        match List.lookup code cache with
        | some route =>
          match route.last_seen with
          | some (Timestamp.valid ls) =>
            if age_days now ls < cache_days then
              (route.from_airport, route.to_airport, true)
            else
              (route.from_airport, route.to_airport, true)
          | some Timestamp.invalid => (route.from_airport, route.to_airport, true)
          | none => (route.from_airport, route.to_airport, true)
        | none => ("", "", false)

/-- The in-memory effect of `update_route_cache` (src/app.py 477-488): early
return on an empty callsign, otherwise overwrite the entry with
`last_seen = now`. The `from_airport or ''` coalescing is the identity on the
string-valued arguments the callers pass. Persistence is modelled separately
by `update_route_cache_save`. -/
def update_route_cache (callsign from_airport to_airport : String)
    (cache : Cache) (not_found : Bool) (now : Int) : Cache :=
  if callsign = "" then cache
  else
    Cache.set cache callsign
      { from_airport := from_airport, to_airport := to_airport,
        last_seen := some (Timestamp.valid now), not_found := not_found }

/-- `save_flight_routes_cache` (src/app.py 430-436): attempt to write the full
mapping to the cache file; on failure the error is logged and swallowed, the
previous file content survives. `storage` is the persisted file content
(`none` when no file exists), `writeOk` says whether the write succeeds. -/
def save_flight_routes_cache (cache : Cache) (storage : Option Cache)
    (writeOk : Bool) : Option Cache :=
  if writeOk then some cache else storage

/-- `update_route_cache` including its call to `save_flight_routes_cache`:
returns the in-memory cache and the persisted file content. The early return
on an empty callsign skips the save as well. -/
def update_route_cache_save (callsign from_airport to_airport : String)
    (cache : Cache) (not_found : Bool) (now : Int) (storage : Option Cache)
    (writeOk : Bool) : Cache × Option Cache :=
  if callsign = "" then (cache, storage)
  else
    let c := update_route_cache callsign from_airport to_airport cache not_found now
    (c, save_flight_routes_cache c storage writeOk)

/-- The inline negative-result suppression check of
`get_flights_airplaneslive` (src/app.py 808-820): suppressed iff the exact
callsign has an entry with truthy `not_found` and a parseable `last_seen`
under 24 hours old (an absent or unparseable `last_seen` raises inside the
`try`, leaving `skip_lookup = False`). -/
def is_suppressed (callsign : String) (cache : Cache) (now : Int) : Bool :=
  match List.lookup callsign cache with
  | some cached =>
    if cached.not_found then
      match cached.last_seen with
      | some (Timestamp.valid ls) => decide (now - ls < 24 * 3600)
      | _ => false
    else false
  | none => false

/-- The process-wide OAuth2 token cache `_opensky_token_cache`
(src/app.py 492): initially `{'token': None, 'expires_at': 0}`. -/
structure TokenCache where
  token : Option String
  expires_at : Int
deriving DecidableEq, Repr

/-- Python truthiness of the cached token: `None` and `''` are falsy. -/
def token_truthy : Option String → Bool
  | some s => s != ""
  | none => false

/-- Parsed body of an HTTP 200 response from the token endpoint:
`access_token` may be absent, `expires_in` defaults to 1800 when absent. -/
structure TokenResp where
  access_token : Option String
  expires_in : Option Int
deriving DecidableEq, Repr

/-- `get_opensky_token(client_id, client_secret)` (src/app.py 494-527).
`resp` is the outcome of the token POST: `some td` for HTTP 200 with body
`td`, `none` for any non-200 status or exception (both return `None` and
leave the cache untouched). Result: the returned token, the new cache state,
and whether the network request was performed. -/
def get_opensky_token (st : TokenCache) (now : Int)
    (resp : Option TokenResp) : Option String × TokenCache × Bool :=
  if token_truthy st.token ∧ now < st.expires_at then
    (st.token, st, false)
  else
    match resp with
    | some td =>
      let token := td.access_token
      let expires_in := td.expires_in.getD 1800
      (token, { token := token, expires_at := now + expires_in - 60 }, true)
    | none => (none, st, true)

/-- One record of the OpenSky flights-by-aircraft response; absent airport
fields and `''` are conflated (read with `.get(key, '')`). -/
structure OsFlight where
  estDepartureAirport : String
  estArrivalAirport : String
deriving DecidableEq, Repr

/-- Outcome of the upstream flights GET: a 200 with a JSON list, a non-200
status code, or a network error / exception. -/
inductive HttpResp where
  | ok (flights : List OsFlight)
  | status (code : Nat)
  | err
deriving DecidableEq, Repr

/-- `fetch_route_from_opensky(icao24, config)` (src/app.py 530-591), with the
HTTP responses passed explicitly. Returns the route result (each side `none`
for Python `None`) and the token-cache state afterwards. On a 200 the source
takes the last flight of the list and returns its airports when at least one
is non-empty; every non-200 status (401, 404, 429, 400, others) only logs and
falls through to `return None, None`, leaving the token cache as the token
subcall left it. -/
def fetch_route_from_opensky (enabled : Bool) (client_id client_secret : String)
    (st : TokenCache) (now : Int) (authResp : Option TokenResp)
    (resp : HttpResp) : (Option String × Option String) × TokenCache :=
  if ¬enabled then ((none, none), st)
  else
    let st1 : TokenCache :=
      if py_strip client_id ≠ "" ∧ py_strip client_secret ≠ "" then
        (get_opensky_token st now authResp).2.1
      else st
    match resp with
    | HttpResp.ok flights =>
      match flights.getLast? with
      | some latest =>
        if latest.estDepartureAirport ≠ "" ∨ latest.estArrivalAirport ≠ "" then
          ((some latest.estDepartureAirport, some latest.estArrivalAirport), st1)
        else ((none, none), st1)
      | none => ((none, none), st1)
    | HttpResp.status _ => ((none, none), st1)
    | HttpResp.err => ((none, none), st1)

/-- Result of the per-aircraft resolution step inside
`get_flights_airplaneslive`: the route fields placed on the aircraft record,
the route cache afterwards, and whether `fetch_route_from_opensky` was
called. -/
structure ResolveResult where
  from_airport : String
  to_airport : String
  cache : Cache
  fetched : Bool
deriving DecidableEq, Repr

/-- The per-aircraft route resolution of `get_flights_airplaneslive`
(src/app.py 802-840): cache lookup, suppression check, conditional upstream
fetch with merge, and write-through. `upstream` is what
`fetch_route_from_opensky` would return for this aircraft, with `None`
rendered as `""` (the source only tests truthiness and coalesces with `or`,
under which the two are interchangeable). `enabled` is
`opensky_config.get('enabled', True)`; `icao24` is already lowercased. -/
def resolve_step (callsign : String) (cache : Cache) (now cache_days : Int)
    (icao24 : String) (enabled : Bool) (upstream : String × String) :
    ResolveResult :=
  let r := get_route_from_cache callsign cache now cache_days
  let from_airport := r.1
  let to_airport := r.2.1
  let is_valid := r.2.2
  let skip_lookup := is_suppressed callsign cache now
  if ¬(skip_lookup = true) ∧ ((from_airport = "" ∧ to_airport = "") ∨ ¬(is_valid = true)) then
    if icao24 ≠ "" ∧ enabled = true then
      let opensky_from := upstream.1
      let opensky_to := upstream.2
      if opensky_from ≠ "" ∨ opensky_to ≠ "" then
        let f := if opensky_from ≠ "" then opensky_from else from_airport
        let t := if opensky_to ≠ "" then opensky_to else to_airport
        { from_airport := f, to_airport := t,
          cache := update_route_cache callsign f t cache false now,
          fetched := true }
      else
        { from_airport := from_airport, to_airport := to_airport,
          cache := update_route_cache callsign "" "" cache true now,
          fetched := true }
    else
      { from_airport := from_airport, to_airport := to_airport,
        cache := cache, fetched := false }
  else
    { from_airport := from_airport, to_airport := to_airport,
      cache := cache, fetched := false }

/-- The fields of one airplanes.live aircraft record that the callsign
derivation and resolution consult; `none` models an absent JSON key. -/
structure Aircraft where
  flight : Option String
  r : Option String
  hex : String
deriving DecidableEq, Repr

/-- Callsign derivation of `get_flights_airplaneslive` (src/app.py 773-776):
`callsign = (aircraft.get('flight') or '').strip()`, and when that is empty,
`callsign = aircraft.get('r', 'Unknown')`. -/
def derive_callsign (a : Aircraft) : String :=
  let callsign := py_strip (a.flight.getD "")
  if callsign = "" then a.r.getD "Unknown" else callsign

/-- The whole per-aircraft pipeline: derive the callsign, then resolve, with
`icao24 = aircraft.get('hex', '').lower()` (src/app.py 823). -/
def process_aircraft (a : Aircraft) (cache : Cache) (now cache_days : Int)
    (enabled : Bool) (upstream : String × String) : ResolveResult :=
  resolve_step (derive_callsign a) cache now cache_days (py_lower a.hex)
    enabled upstream

/-- One formatted output flight of the provider functions; `distance` is the
rounded distance in tenths of a kilometre, modelled exactly. -/
structure FlightOut where
  callsign : String
  distance : Int
deriving DecidableEq, Repr

/-- `nearby_flights.sort(key=lambda x: x['distance'])`: Python `list.sort` is
a stable ascending sort by the key, modelled by `List.mergeSort`. -/
def sort_by_distance (flights : List FlightOut) : List FlightOut :=
  flights.mergeSort (fun a b => a.distance ≤ b.distance)

/-- Ranking step of `get_flights_airplaneslive` (src/app.py 858-860): sort by
distance, keep the nearest 4. -/
def get_flights_airplaneslive_ranked (flights : List FlightOut) :
    List FlightOut :=
  (sort_by_distance flights).take 4

/-- Ranking step of `get_flights_opensky` (src/app.py 984-986): sort by
distance, keep the nearest 5. -/
def get_flights_opensky_ranked (flights : List FlightOut) : List FlightOut :=
  (sort_by_distance flights).take 5

/-- Ranking step of `get_flights_airlabs` (src/app.py 1089-1091): sort by
distance, keep the nearest 5. -/
def get_flights_airlabs_ranked (flights : List FlightOut) : List FlightOut :=
  (sort_by_distance flights).take 5

/-! ## Cache lemmas -/

theorem lookup_filter_other (c : Cache) (k k' : String) (h : k' ≠ k) :
    List.lookup k' (c.filter (fun p => p.1 != k)) = List.lookup k' c := by
  induction c with
  | nil => rfl
  | cons p t ih =>
    by_cases hp : p.1 = k
    · have hf : (p.1 != k) = false := by simp [hp]
      have hk : (k' == p.1) = false := by
        simp [hp]
        exact h
      cases p with
      | mk a b =>
        simp only [List.filter_cons, hf, Bool.false_eq_true, if_false]
        rw [List.lookup_cons]
        simp only at hk
        simp [hk, ih]
    · have hf : (p.1 != k) = true := by simp [hp]
      cases p with
      | mk a b =>
        simp only [List.filter_cons, hf, if_true]
        rw [List.lookup_cons, List.lookup_cons]
        by_cases hk : (k' == a) = true
        · simp [hk]
        · simp only [Bool.not_eq_true] at hk
          simp [hk, ih]

theorem lookup_set_self (c : Cache) (k : String) (e : RouteEntry) :
    List.lookup k (Cache.set c k e) = some e := by
  simp [Cache.set]

theorem lookup_set_other (c : Cache) (k k' : String) (e : RouteEntry)
    (h : k' ≠ k) :
    List.lookup k' (Cache.set c k e) = List.lookup k' c := by
  have hk : (k' == k) = false := by simp [h]
  simp only [Cache.set]
  rw [List.lookup_cons]
  simp [hk, lookup_filter_other c k k' h]

theorem lookup_update_self (callsign f t : String) (c : Cache) (nf : Bool)
    (now : Int) (h : callsign ≠ "") :
    List.lookup callsign (update_route_cache callsign f t c nf now) =
      some ⟨f, t, some (Timestamp.valid now), nf⟩ := by
  simp only [update_route_cache, if_neg h]
  exact lookup_set_self c callsign _

/-! ## C1: freshness flag of the cache lookup -/

/-- The freshness flag the exact-match branch of `get_route_from_cache`
computes from a stored `last_seen`. -/
def fresh_flag (ls : Option Timestamp) (now cache_days : Int) : Bool :=
  match ls with
  | some (Timestamp.valid t) => decide (age_days now t < cache_days)
  | some Timestamp.invalid => true
  | none => true

/-- C1 (amended): for a non-empty key found by exact match, the returned
flag is `(now - last_seen).days < cache_days` when `last_seen` parses and
`true` when it is missing or unparseable, and the stored airports are
returned regardless; for a key found only via the derived airline-code
fallback, the flag is always `true` — even for a stale entry — and the
stored airports are returned. -/
theorem C1_lookup_freshness (cache : Cache) (callsign : String)
    (now cache_days : Int) (route : RouteEntry) (hne : callsign ≠ "") :
    (List.lookup callsign cache = some route →
      get_route_from_cache callsign cache now cache_days =
        (route.from_airport, route.to_airport,
          fresh_flag route.last_seen now cache_days)) ∧
    (List.lookup callsign cache = none →
      airline_code callsign ≠ "" →
      List.lookup (airline_code callsign) cache = some route →
      get_route_from_cache callsign cache now cache_days =
        (route.from_airport, route.to_airport, true)) := by
  constructor
  · intro hlook
    simp only [get_route_from_cache, if_neg hne, hlook]
    cases hls : route.last_seen with
    | some ts =>
      cases ts with
      | valid t =>
        by_cases hage : age_days now t < cache_days <;>
          simp [fresh_flag, hls, hage]
      | invalid => simp [fresh_flag, hls]
    | none => simp [fresh_flag, hls]
  · intro hmiss hcode hlook
    simp only [get_route_from_cache, if_neg hne, hmiss, if_neg hcode, hlook]
    cases hls : route.last_seen with
    | some ts =>
      cases ts with
      | valid t =>
        by_cases hage : age_days now t < cache_days <;> simp [hage]
      | invalid => simp
    | none => simp

/-- C1 witness: the theorem applied at a concrete exact match and at a
concrete fallback match. -/
theorem C1_lookup_freshness_witness :
    get_route_from_cache "DLH123"
        [("DLH123", ⟨"EDDF", "LIML", some (Timestamp.valid 0), false⟩)] 100 7
      = ("EDDF", "LIML", true) ∧
    get_route_from_cache "UAL123"
        [("UAL", ⟨"KORD", "", some (Timestamp.valid 0), false⟩)] 100 7
      = ("KORD", "", true) :=
  ⟨(C1_lookup_freshness
      [("DLH123", ⟨"EDDF", "LIML", some (Timestamp.valid 0), false⟩)]
      "DLH123" 100 7 ⟨"EDDF", "LIML", some (Timestamp.valid 0), false⟩
      (by decide)).1 (by decide),
   (C1_lookup_freshness
      [("UAL", ⟨"KORD", "", some (Timestamp.valid 0), false⟩)]
      "UAL123" 100 7 ⟨"KORD", "", some (Timestamp.valid 0), false⟩
      (by decide)).2 (by decide) (by decide) (by decide)⟩

/-- C1 counterexample: the claim asserts the flag equals
`(now - last_seen).days < maxAgeDays` also for entries found via the derived
airline-code key, but a 10-day-old fallback entry is reported fresh under
`maxAgeDays = 7`. -/
theorem C1_counterexample :
    get_route_from_cache "UAL123"
        [("UAL", ⟨"KORD", "KSFO", some (Timestamp.valid 0), false⟩)]
        (10 * 86400) 7
      = ("KORD", "KSFO", true) ∧
    ¬ (age_days (10 * 86400) 0 < 7) := by decide

/-! ## C2: negative-result suppression window -/

/-- C2: for an entry with a parseable `last_seen`, the suppression check is
true exactly when the exact-key entry exists with `not_found = true` and is
under 24 hours old; it is false when no exact entry exists; it is true at
the moment of a `not_found = true` write and false once 24 hours have
passed since that write. -/
theorem C2_suppression_window (cache : Cache) (key : String)
    (now later ls : Int) (e : RouteEntry) :
    (List.lookup key cache = some e → e.last_seen = some (Timestamp.valid ls) →
      (is_suppressed key cache now = true ↔
        (e.not_found = true ∧ now - ls < 24 * 3600))) ∧
    (List.lookup key cache = none → is_suppressed key cache now = false) ∧
    (key ≠ "" →
      is_suppressed key (update_route_cache key "" "" cache true now) now
        = true) ∧
    (key ≠ "" → later - now ≥ 24 * 3600 →
      is_suppressed key (update_route_cache key "" "" cache true now) later
        = false) := by
  refine ⟨?_, ?_, ?_, ?_⟩
  · intro hlook hls
    simp only [is_suppressed, hlook, hls]
    by_cases hnf : e.not_found = true
    · simp [hnf]
    · simp only [Bool.not_eq_true] at hnf
      simp [hnf]
  · intro hmiss
    simp [is_suppressed, hmiss]
  · intro hk
    simp [is_suppressed, lookup_update_self key "" "" cache true now hk]
  · intro hk hage
    simp only [is_suppressed, lookup_update_self key "" "" cache true now hk]
    have hnl : ¬(later - now < 24 * 3600) := by omega
    simp [hnl]
    omega

/-- C2 witness: the theorem applied to a `not_found = true` write of key
`XYZ999` at time 0, checked at times 0 (suppressed) and 86400 (no longer
suppressed), and to an empty cache (not suppressed). -/
theorem C2_suppression_window_witness :
    is_suppressed "XYZ999" (update_route_cache "XYZ999" "" "" [] true 0) 0
      = true ∧
    is_suppressed "XYZ999" (update_route_cache "XYZ999" "" "" [] true 0) 86400
      = false ∧
    is_suppressed "XYZ999" [] 0 = false :=
  ⟨(C2_suppression_window [] "XYZ999" 0 86400 0
      ⟨"", "", some (Timestamp.valid 0), true⟩).2.2.1 (by decide),
   (C2_suppression_window [] "XYZ999" 0 86400 0
      ⟨"", "", some (Timestamp.valid 0), true⟩).2.2.2 (by decide) (by decide),
   (C2_suppression_window [] "XYZ999" 0 86400 0
      ⟨"", "", some (Timestamp.valid 0), true⟩).2.1 (by decide)⟩

/-! ## C4: OAuth2 token caching -/

/-- C4: while a token is held and unexpired, `get_opensky_token` returns it
without a network request; otherwise it performs the request, and an HTTP 200
stores the new token with `expires_at = now + expires_in - 60`; hence two
calls inside the expiry window perform exactly one network request. -/
theorem C4_token_reuse (st : TokenCache) (now now2 : Int)
    (resp resp2 : Option TokenResp) (td : TokenResp) (tok : String)
    (ei : Int) :
    (token_truthy st.token = true → now < st.expires_at →
      get_opensky_token st now resp = (st.token, st, false)) ∧
    (¬(token_truthy st.token = true ∧ now < st.expires_at) →
      get_opensky_token st now (some td) =
        (td.access_token,
          ⟨td.access_token, now + td.expires_in.getD 1800 - 60⟩, true)) ∧
    (¬(token_truthy st.token = true ∧ now < st.expires_at) →
      tok ≠ "" → now2 < now + ei - 60 →
      (get_opensky_token st now (some ⟨some tok, some ei⟩)).2.2 = true ∧
      (get_opensky_token st now (some ⟨some tok, some ei⟩)).1 = some tok ∧
      ((get_opensky_token st now (some ⟨some tok, some ei⟩)).2.1).expires_at
        = now + ei - 60 ∧
      (get_opensky_token
        ((get_opensky_token st now (some ⟨some tok, some ei⟩)).2.1) now2
        resp2)
        = (some tok,
           (get_opensky_token st now (some ⟨some tok, some ei⟩)).2.1,
           false)) := by
  refine ⟨?_, ?_, ?_⟩
  · intro h1 h2
    simp [get_opensky_token, h1, h2]
  · intro h
    simp [get_opensky_token, h]
  · intro h htok hwin
    have hfirst : get_opensky_token st now (some ⟨some tok, some ei⟩)
        = (some tok, ⟨some tok, now + ei - 60⟩, true) := by
      simp [get_opensky_token, h]
    rw [hfirst]
    refine ⟨rfl, rfl, rfl, ?_⟩
    have htt : token_truthy (some tok) = true := by
      simp [token_truthy, htok]
    simp [get_opensky_token, htt, hwin]

/-- C4 witness: a held unexpired token is returned with no request; from the
empty state, a 200 response with `expires_in = 1800` is stored with
`expires_at = 1740`, and a second call at time 100 makes no request. -/
theorem C4_token_reuse_witness :
    get_opensky_token ⟨some "tok", 1000⟩ 0 none
      = (some "tok", ⟨some "tok", 1000⟩, false) ∧
    ((get_opensky_token ⟨none, 0⟩ 0 (some ⟨some "tok", some 1800⟩)).2.2 = true ∧
     (get_opensky_token ⟨none, 0⟩ 0 (some ⟨some "tok", some 1800⟩)).1
        = some "tok" ∧
     ((get_opensky_token ⟨none, 0⟩ 0
        (some ⟨some "tok", some 1800⟩)).2.1).expires_at = 0 + 1800 - 60 ∧
     (get_opensky_token
        ((get_opensky_token ⟨none, 0⟩ 0 (some ⟨some "tok", some 1800⟩)).2.1)
        100 none)
        = (some "tok",
           (get_opensky_token ⟨none, 0⟩ 0 (some ⟨some "tok", some 1800⟩)).2.1,
           false)) :=
  ⟨(C4_token_reuse ⟨some "tok", 1000⟩ 0 100 none none ⟨none, none⟩ "tok"
      1800).1 (by decide) (by decide),
   (C4_token_reuse ⟨none, 0⟩ 0 100 none none ⟨none, none⟩ "tok" 1800).2.2
      (by decide) (by decide) (by decide)⟩

/-! ## C7: 401 handling -/

/-- C7 (amended): a 401 (or any non-200) from the upstream flights request is
logged and the resolution fails closed for that cycle — no route is returned
— and an auth failure leaves the token cache unchanged and returns no token;
but the cached token state is NOT reset: an unexpired held token survives an
upstream 401 untouched. -/
theorem C7_auth_failure_no_reset (enabled : Bool) (cid csec : String)
    (st : TokenCache) (now : Int) (authResp : Option TokenResp) (c : Nat) :
    (fetch_route_from_opensky enabled cid csec st now authResp
        (HttpResp.status c)).1 = (none, none) ∧
    (get_opensky_token st now none).2.1 = st ∧
    (¬(token_truthy st.token = true ∧ now < st.expires_at) →
      (get_opensky_token st now none).1 = none) ∧
    (token_truthy st.token = true → now < st.expires_at →
      (fetch_route_from_opensky enabled cid csec st now authResp
        (HttpResp.status c)).2 = st) := by
  refine ⟨?_, ?_, ?_, ?_⟩
  · by_cases he : enabled <;>
      simp [fetch_route_from_opensky, he]
  · by_cases h : token_truthy st.token = true ∧ now < st.expires_at <;>
      simp [get_opensky_token, h]
  · intro h
    simp [get_opensky_token, h]
  · intro h1 h2
    by_cases he : enabled
    · have hget : (get_opensky_token st now authResp).2.1 = st := by
        simp [get_opensky_token, h1, h2]
      by_cases hc : py_strip cid ≠ "" ∧ py_strip csec ≠ "" <;>
        simp [fetch_route_from_opensky, he, hc, hget]
    · simp [fetch_route_from_opensky, he]

/-- C7 witness: the theorem applied to an unexpired held token and an
upstream 404 at a concrete input. -/
theorem C7_auth_failure_no_reset_witness :
    (fetch_route_from_opensky true "id" "sec" ⟨some "tok", 1000⟩ 0 none
        (HttpResp.status 404)).1 = (none, none) ∧
    (fetch_route_from_opensky true "id" "sec" ⟨some "tok", 1000⟩ 0 none
        (HttpResp.status 404)).2 = ⟨some "tok", 1000⟩ :=
  ⟨(C7_auth_failure_no_reset true "id" "sec" ⟨some "tok", 1000⟩ 0 none 404).1,
   (C7_auth_failure_no_reset true "id" "sec" ⟨some "tok", 1000⟩ 0 none
      404).2.2.2 (by decide) (by decide)⟩

/-- C7 counterexample: the claim asserts a 401 resets the token state to
Empty with no cached token held, but after an upstream 401 the unexpired
token is still cached. -/
theorem C7_counterexample :
    (fetch_route_from_opensky true "id" "sec" ⟨some "tok", 1000⟩ 0 none
        (HttpResp.status 401)).2 = ⟨some "tok", 1000⟩ ∧
    token_truthy
      (fetch_route_from_opensky true "id" "sec" ⟨some "tok", 1000⟩ 0 none
        (HttpResp.status 401)).2.token = true := by decide

/-! ## C3: write-through of upstream results -/

/-- C3 (amended): for a non-suppressed resolution whose cache result is a
miss, stale, or empty, with upstream enabled and an ICAO24 available, and
whose derived key is non-empty: on upstream success each field is merged with
the partially cached value (upstream winning) and the entry is written with
`not_found = false`; on upstream failure the entry is written empty with
`not_found = true`. (For an empty key the fetch still happens but
`update_route_cache` returns without writing.) -/
theorem C3_resolver_writethrough (cache : Cache) (callsign icao24 : String)
    (now cache_days : Int) (uf ut : String)
    (hcs : callsign ≠ "") (hicao : icao24 ≠ "")
    (hskip : is_suppressed callsign cache now = false)
    (hcond : ((get_route_from_cache callsign cache now cache_days).1 = "" ∧
              (get_route_from_cache callsign cache now cache_days).2.1 = "") ∨
             (get_route_from_cache callsign cache now cache_days).2.2
               = false) :
    ((uf ≠ "" ∨ ut ≠ "") →
      (resolve_step callsign cache now cache_days icao24 true (uf, ut)).fetched
        = true ∧
      (resolve_step callsign cache now cache_days icao24 true
          (uf, ut)).from_airport =
        (if uf ≠ "" then uf
         else (get_route_from_cache callsign cache now cache_days).1) ∧
      (resolve_step callsign cache now cache_days icao24 true
          (uf, ut)).to_airport =
        (if ut ≠ "" then ut
         else (get_route_from_cache callsign cache now cache_days).2.1) ∧
      List.lookup callsign
        (resolve_step callsign cache now cache_days icao24 true
          (uf, ut)).cache =
        some ⟨(if uf ≠ "" then uf
               else (get_route_from_cache callsign cache now cache_days).1),
              (if ut ≠ "" then ut
               else (get_route_from_cache callsign cache now cache_days).2.1),
              some (Timestamp.valid now), false⟩) ∧
    (uf = "" → ut = "" →
      (resolve_step callsign cache now cache_days icao24 true (uf, ut)).fetched
        = true ∧
      List.lookup callsign
        (resolve_step callsign cache now cache_days icao24 true
          (uf, ut)).cache =
        some ⟨"", "", some (Timestamp.valid now), true⟩) := by
  have hc1 : ¬(is_suppressed callsign cache now = true) := by simp [hskip]
  have hcond2 :
      ((get_route_from_cache callsign cache now cache_days).1 = "" ∧
        (get_route_from_cache callsign cache now cache_days).2.1 = "") ∨
      ¬((get_route_from_cache callsign cache now cache_days).2.2 = true) := by
    rcases hcond with h | h
    · exact Or.inl h
    · exact Or.inr (by simp [h])
  constructor
  · intro hsucc
    simp only [resolve_step]
    rw [if_pos ⟨hc1, hcond2⟩, if_pos ⟨hicao, by trivial⟩, if_pos hsucc]
    exact ⟨rfl, rfl, rfl, lookup_update_self callsign _ _ cache false now hcs⟩
  · intro huf hut
    have hfail : ¬((uf, ut).1 ≠ "" ∨ (uf, ut).2 ≠ "") := by
      simp [huf, hut]
    simp only [resolve_step]
    rw [if_pos ⟨hc1, hcond2⟩, if_pos ⟨hicao, by trivial⟩, if_neg hfail]
    exact ⟨rfl, lookup_update_self callsign "" "" cache true now hcs⟩

/-- C3 witness: a cache miss for `DLH123` with upstream success
`("EDDF", "LIML")` writes through and returns the merged route; a miss for
`XYZ999` with upstream failure writes the suppression entry. -/
theorem C3_resolver_writethrough_witness :
    ((resolve_step "DLH123" [] 0 7 "3c6444" true ("EDDF", "LIML")).fetched
        = true ∧
      (resolve_step "DLH123" [] 0 7 "3c6444" true
          ("EDDF", "LIML")).from_airport =
        (if "EDDF" ≠ "" then "EDDF"
         else (get_route_from_cache "DLH123" [] 0 7).1) ∧
      (resolve_step "DLH123" [] 0 7 "3c6444" true
          ("EDDF", "LIML")).to_airport =
        (if "LIML" ≠ "" then "LIML"
         else (get_route_from_cache "DLH123" [] 0 7).2.1) ∧
      List.lookup "DLH123"
        (resolve_step "DLH123" [] 0 7 "3c6444" true ("EDDF", "LIML")).cache =
        some ⟨(if "EDDF" ≠ "" then "EDDF"
               else (get_route_from_cache "DLH123" [] 0 7).1),
              (if "LIML" ≠ "" then "LIML"
               else (get_route_from_cache "DLH123" [] 0 7).2.1),
              some (Timestamp.valid 0), false⟩) ∧
    ((resolve_step "XYZ999" [] 0 7 "4cc111" true ("", "")).fetched = true ∧
      List.lookup "XYZ999"
        (resolve_step "XYZ999" [] 0 7 "4cc111" true ("", "")).cache =
        some ⟨"", "", some (Timestamp.valid 0), true⟩) :=
  ⟨(C3_resolver_writethrough [] "DLH123" "3c6444" 0 7 "EDDF" "LIML"
      (by decide) (by decide) (by decide) (by decide)).1
      (by decide),
   (C3_resolver_writethrough [] "XYZ999" "4cc111" 0 7 "" ""
      (by decide) (by decide) (by decide) (by decide)).2
      (by decide) (by decide)⟩

/-- C3 counterexample: for an empty derived key (possible when the feed
reports an empty `flight` and an empty registration) the upstream fetch is
performed on failure, but no suppression entry is written — the cache stays
empty, against the claim that the entry is always written. -/
theorem C3_counterexample :
    (resolve_step "" [] 0 7 "abc123" true ("", "")).fetched = true ∧
    (resolve_step "" [] 0 7 "abc123" true ("", "")).cache = [] := by decide

/-! ## C5: the derived fallback key -/

theorem filter_take_eq_takeWhile_take (l : List Char) (n : Nat)
    (h : ∀ c ∈ l.take n, c.isAlpha = true) :
    (l.take n).filter Char.isAlpha = (l.takeWhile Char.isAlpha).take n := by
  induction l generalizing n with
  | nil => simp
  | cons c t ih =>
    cases n with
    | zero => simp
    | succ m =>
      have hc : c.isAlpha = true := h c (by simp)
      have ht : ∀ x ∈ t.take m, x.isAlpha = true := by
        intro x hx
        refine h x ?_
        simp only [List.take_succ_cons, List.mem_cons]
        exact Or.inr hx
      simp only [List.take_succ_cons, List.filter_cons, hc, if_true,
        List.takeWhile_cons, ih m ht]

/-- C5 (amended): on an exact miss the lookup retries with the derived key
made of the alphabetic characters among the first 3 characters of the
original key — which equals the leading alphabetic run capped at 3 exactly
when the first 3 characters are all alphabetic; a hit on the derived key
returns that stored route, a miss returns absent; the `UAL123`/`UAL9999`
and `UAL`/`UAL123` examples hold as stated. -/
theorem C5_fallback_key (cache : Cache) (callsign : String)
    (now cache_days : Int) (e : RouteEntry) (hcs : callsign ≠ "") :
    ((∀ c ∈ callsign.toList.take 3, c.isAlpha = true) →
      airline_code callsign = spec_leading_alpha callsign) ∧
    (List.lookup callsign cache = none → airline_code callsign ≠ "" →
      List.lookup (airline_code callsign) cache = some e →
      get_route_from_cache callsign cache now cache_days =
        (e.from_airport, e.to_airport, true)) ∧
    (List.lookup callsign cache = none →
      List.lookup (airline_code callsign) cache = none →
      get_route_from_cache callsign cache now cache_days = ("", "", false)) ∧
    get_route_from_cache "UAL9999"
      (update_route_cache "UAL123" "KORD" "" [] false now) now 7
      = ("", "", false) ∧
    get_route_from_cache "UAL123"
      (update_route_cache "UAL" "KORD" "" [] false now) now 7
      = ("KORD", "", true) := by
  refine ⟨?_, ?_, ?_, ?_, ?_⟩
  · intro h
    simp only [airline_code, spec_leading_alpha]
    rw [filter_take_eq_takeWhile_take callsign.toList 3 h]
  · intro hmiss hcode hhit
    simp only [get_route_from_cache, if_neg hcs, hmiss]
    rw [if_neg hcode]
    simp only [hhit]
    cases hls : e.last_seen with
    | some ts =>
      cases ts with
      | valid t =>
        by_cases hage : age_days now t < cache_days <;> simp [hage]
      | invalid => simp
    | none => simp
  · intro hmiss hcmiss
    simp only [get_route_from_cache, if_neg hcs, hmiss]
    by_cases hcode : airline_code callsign = ""
    · rw [if_pos hcode]
    · rw [if_neg hcode]
      simp [hcmiss]
  · have h9 : List.lookup "UAL9999"
        (update_route_cache "UAL123" "KORD" "" [] false now) = none := by
      simp [update_route_cache, Cache.set, List.lookup]
    have hc9 : List.lookup (airline_code "UAL9999")
        (update_route_cache "UAL123" "KORD" "" [] false now) = none := by
      simp [update_route_cache, Cache.set, List.lookup, airline_code]
    simp only [get_route_from_cache, h9]
    rw [if_neg (by decide : ¬("UAL9999" = ""))]
    rw [if_neg (by decide : ¬(airline_code "UAL9999" = ""))]
    simp [hc9]
  · have h1 : List.lookup "UAL123"
        (update_route_cache "UAL" "KORD" "" [] false now) = none := by
      simp [update_route_cache, Cache.set, List.lookup]
    have h2 : List.lookup (airline_code "UAL123")
        (update_route_cache "UAL" "KORD" "" [] false now)
        = some ⟨"KORD", "", some (Timestamp.valid now), false⟩ := by
      simp [update_route_cache, Cache.set, List.lookup, airline_code]
    simp only [get_route_from_cache, h1]
    rw [if_neg (by decide : ¬("UAL123" = ""))]
    rw [if_neg (by decide : ¬(airline_code "UAL123" = ""))]
    simp only [h2]
    have hage : age_days now now < 7 := by
      simp [age_days]
    simp [hage]

/-- C5 witness: the theorem applied to a concrete cache at concrete keys. -/
theorem C5_fallback_key_witness :
    airline_code "UAL123" = spec_leading_alpha "UAL123" ∧
    get_route_from_cache "UAL456"
        [("UAL", ⟨"KORD", "", some (Timestamp.valid 0), false⟩)] 0 7
      = ("KORD", "", true) ∧
    get_route_from_cache "UAL9999"
      (update_route_cache "UAL123" "KORD" "" [] false 0) 0 7
      = ("", "", false) :=
  ⟨(C5_fallback_key [] "UAL123" 0 7
      ⟨"KORD", "", some (Timestamp.valid 0), false⟩ (by decide)).1 (by decide),
   (C5_fallback_key [("UAL", ⟨"KORD", "", some (Timestamp.valid 0), false⟩)]
      "UAL456" 0 7 ⟨"KORD", "", some (Timestamp.valid 0), false⟩
      (by decide)).2.1 (by decide) (by decide) (by decide),
   (C5_fallback_key [] "UAL9999" 0 7
      ⟨"KORD", "", some (Timestamp.valid 0), false⟩ (by decide)).2.2.2.1⟩

/-- C5 counterexample: the claim says the derived key is the leading
alphabetic run of the key, but for `A1B999` the code derives `AB` (the
alphabetic characters among the first three), not `A`, and a cache holding
only key `AB` is hit although the leading-run key is absent. -/
theorem C5_counterexample :
    airline_code "A1B999" = "AB" ∧
    spec_leading_alpha "A1B999" = "A" ∧
    List.lookup (spec_leading_alpha "A1B999")
      [("AB", (⟨"KJFK", "EGLL", some (Timestamp.valid 0), false⟩
        : RouteEntry))] = none ∧
    get_route_from_cache "A1B999"
      [("AB", ⟨"KJFK", "EGLL", some (Timestamp.valid 0), false⟩)] 0 7
      = ("KJFK", "EGLL", true) := by decide

/-! ## C6: empty callsign handling -/

/-- C6 (amended): when the trimmed `flight` field is empty the resolver does
not return immediately; it substitutes the registration field (default
`"Unknown"`) as the key and proceeds with the normal resolution pipeline.
Only `get_route_from_cache` itself short-circuits on an actually empty key,
returning `("", "", false)` for every cache without consulting it. -/
theorem C6_empty_callsign (a : Aircraft) (cache : Cache)
    (now cache_days : Int) (enabled : Bool) (upstream : String × String)
    (h : py_strip (a.flight.getD "") = "") :
    derive_callsign a = a.r.getD "Unknown" ∧
    process_aircraft a cache now cache_days enabled upstream =
      resolve_step (a.r.getD "Unknown") cache now cache_days (py_lower a.hex)
        enabled upstream ∧
    get_route_from_cache "" cache now cache_days = ("", "", false) := by
  have hd : derive_callsign a = a.r.getD "Unknown" := by
    simp [derive_callsign, h]
  exact ⟨hd, by simp [process_aircraft, hd], by simp [get_route_from_cache]⟩

/-- C6 witness: an aircraft broadcasting only whitespace as `flight` with
registration `D-ABCD` resolves under the key `D-ABCD`. -/
theorem C6_empty_callsign_witness :
    derive_callsign ⟨some "   ", some "D-ABCD", "3C6444"⟩ = "D-ABCD" ∧
    process_aircraft ⟨some "   ", some "D-ABCD", "3C6444"⟩ [] 0 7 true
        ("", "") =
      resolve_step "D-ABCD" [] 0 7 (py_lower "3C6444") true ("", "") ∧
    get_route_from_cache "" [] 0 7 = ("", "", false) :=
  C6_empty_callsign ⟨some "   ", some "D-ABCD", "3C6444"⟩ [] 0 7 true
    ("", "") (by decide)

/-- C6 counterexample: the claim says an observation with an empty trimmed
callsign yields `("", "")` with no upstream call, but such an observation
gets the key `Unknown` and the resolver does perform the upstream fetch. -/
theorem C6_counterexample :
    derive_callsign ⟨some "   ", none, "ABC123"⟩ = "Unknown" ∧
    (process_aircraft ⟨some "   ", none, "ABC123"⟩ [] 0 7 true
        ("", "")).fetched = true := by decide

/-! ## C8: cache update and persistence -/

/-- C8 (amended): for every non-empty key, `update_route_cache` overwrites or
creates the entry with `last_seen = now`, leaves every other key unchanged,
and then persists the full mapping; a persistence failure leaves the previous
file content and is not propagated — the in-memory entry is present
afterwards whether or not the write succeeded. (For the empty key the
function returns without writing or persisting anything.) -/
theorem C8_update_persistence (callsign f t : String) (cache : Cache)
    (nf : Bool) (now : Int) (storage : Option Cache) (writeOk : Bool)
    (h : callsign ≠ "") :
    (update_route_cache_save callsign f t cache nf now storage writeOk).1 =
      update_route_cache callsign f t cache nf now ∧
    List.lookup callsign
      (update_route_cache_save callsign f t cache nf now storage writeOk).1 =
      some ⟨f, t, some (Timestamp.valid now), nf⟩ ∧
    (∀ k, k ≠ callsign →
      List.lookup k
        (update_route_cache_save callsign f t cache nf now storage
          writeOk).1 = List.lookup k cache) ∧
    (writeOk = true →
      (update_route_cache_save callsign f t cache nf now storage writeOk).2 =
        some (update_route_cache callsign f t cache nf now)) ∧
    (writeOk = false →
      (update_route_cache_save callsign f t cache nf now storage writeOk).2 =
        storage) := by
  refine ⟨?_, ?_, ?_, ?_, ?_⟩
  · simp [update_route_cache_save, if_neg h]
  · simp only [update_route_cache_save, if_neg h]
    exact lookup_update_self callsign f t cache nf now h
  · intro k hk
    simp only [update_route_cache_save, if_neg h, update_route_cache]
    exact lookup_set_other cache callsign k _ hk
  · intro hw
    simp [update_route_cache_save, if_neg h, save_flight_routes_cache, hw]
  · intro hw
    simp [update_route_cache_save, if_neg h, save_flight_routes_cache, hw]

/-- C8 witness: the theorem applied to key `DLH123` on an empty cache with a
failing write: the in-memory entry exists, the file is untouched. -/
theorem C8_update_persistence_witness :
    List.lookup "DLH123"
      (update_route_cache_save "DLH123" "EDDF" "LIML" [] false 5 none
        false).1 = some ⟨"EDDF", "LIML", some (Timestamp.valid 5), false⟩ ∧
    (update_route_cache_save "DLH123" "EDDF" "LIML" [] false 5 none
        false).2 = none :=
  ⟨(C8_update_persistence "DLH123" "EDDF" "LIML" [] false 5 none false
      (by decide)).2.1,
   (C8_update_persistence "DLH123" "EDDF" "LIML" [] false 5 none false
      (by decide)).2.2.2.2 (by decide)⟩

/-- C8 counterexample: the claim quantifies over every key, but for the empty
key the update writes nothing and persists nothing: the cache keeps no entry
and the missing file stays missing even though the write would succeed. -/
theorem C8_counterexample :
    update_route_cache_save "" "KJFK" "EGLL" [] false 0 none true
      = ([], none) := by decide

/-! ## C9: ranking and truncation -/

theorem sort_by_distance_sorted (l : List FlightOut) :
    List.Pairwise (fun a b => a.distance ≤ b.distance)
      (sort_by_distance l) := by
  unfold sort_by_distance
  refine List.Pairwise.imp ?_ (List.sorted_mergeSort ?_ ?_ l)
  · intro a b hab
    simpa using hab
  · intro a b c hab hbc
    simp only [decide_eq_true_eq] at hab hbc ⊢
    omega
  · intro a b
    by_cases hab : a.distance ≤ b.distance
    · simp [hab]
    · simp only [Bool.or_eq_true, decide_eq_true_eq]
      right
      omega

/-- C9: each provider's result is sorted ascending by distance, drawn from
the input flights, and truncated to 4 for airplanes.live and 5 for OpenSky
and AirLabs. -/
theorem C9_rank_truncate (l : List FlightOut) :
    ((get_flights_airplaneslive_ranked l).length ≤ 4 ∧
      List.Pairwise (fun a b => a.distance ≤ b.distance)
        (get_flights_airplaneslive_ranked l) ∧
      ∀ x ∈ get_flights_airplaneslive_ranked l, x ∈ l) ∧
    ((get_flights_opensky_ranked l).length ≤ 5 ∧
      List.Pairwise (fun a b => a.distance ≤ b.distance)
        (get_flights_opensky_ranked l) ∧
      ∀ x ∈ get_flights_opensky_ranked l, x ∈ l) ∧
    ((get_flights_airlabs_ranked l).length ≤ 5 ∧
      List.Pairwise (fun a b => a.distance ≤ b.distance)
        (get_flights_airlabs_ranked l) ∧
      ∀ x ∈ get_flights_airlabs_ranked l, x ∈ l) := by
  have hs := sort_by_distance_sorted l
  have hmem : ∀ n, ∀ x ∈ (sort_by_distance l).take n, x ∈ l := by
    intro n x hx
    have hx2 : x ∈ sort_by_distance l := (List.take_sublist n _).mem hx
    simpa [sort_by_distance] using hx2
  refine ⟨⟨?_, ?_, hmem 4⟩, ⟨?_, ?_, hmem 5⟩, ⟨?_, ?_, hmem 5⟩⟩ <;>
    first
      | exact List.length_take_le _ _
      | exact List.Pairwise.sublist (List.take_sublist _ _) hs

/-! ## C10: suppression consults only the exact key -/

/-- C10: when the exact key is absent but the derived airline-code key holds
a fresh `not_found = true` entry, the resolver is not suppressed — the
suppression check looks only at the exact key — the lookup returns that
entry's (empty) route with a true freshness flag, and the upstream fetch is
still performed. -/
theorem C10_suppression_exact_only (cache : Cache) (callsign icao24 : String)
    (now cache_days ls : Int) (e : RouteEntry) (upstream : String × String)
    (hcs : callsign ≠ "") (hicao : icao24 ≠ "")
    (hexact : List.lookup callsign cache = none)
    (hcode : airline_code callsign ≠ "")
    (hpref : List.lookup (airline_code callsign) cache = some e)
    (hnf : e.not_found = true)
    (hfrom : e.from_airport = "") (hto : e.to_airport = "")
    (hls : e.last_seen = some (Timestamp.valid ls))
    (hfresh : now - ls < 24 * 3600) :
    is_suppressed callsign cache now = false ∧
    get_route_from_cache callsign cache now cache_days = ("", "", true) ∧
    is_suppressed (airline_code callsign) cache now = true ∧
    (resolve_step callsign cache now cache_days icao24 true upstream).fetched
      = true := by
  have h1 : is_suppressed callsign cache now = false := by
    simp [is_suppressed, hexact]
  have h2 : get_route_from_cache callsign cache now cache_days
      = ("", "", true) := by
    simp only [get_route_from_cache, if_neg hcs, hexact]
    rw [if_neg hcode]
    simp only [hpref, hls]
    by_cases hage : age_days now ls < cache_days <;> simp [hage, hfrom, hto]
  have h3 : is_suppressed (airline_code callsign) cache now = true := by
    simp only [is_suppressed, hpref, hnf, hls, if_true, decide_eq_true_eq]
    omega
  refine ⟨h1, h2, h3, ?_⟩
  have hc1 : ¬(is_suppressed callsign cache now = true) := by simp [h1]
  have hcond :
      ((get_route_from_cache callsign cache now cache_days).1 = "" ∧
        (get_route_from_cache callsign cache now cache_days).2.1 = "") ∨
      ¬((get_route_from_cache callsign cache now cache_days).2.2 = true) := by
    rw [h2]
    exact Or.inl ⟨rfl, rfl⟩
  simp only [resolve_step]
  rw [if_pos ⟨hc1, hcond⟩, if_pos ⟨hicao, by trivial⟩]
  by_cases hu : upstream.1 ≠ "" ∨ upstream.2 ≠ ""
  · rw [if_pos hu]
  · rw [if_neg hu]

/-- C10 witness: key `UAL123` absent, derived key `UAL` freshly marked
`not_found`: the resolver still fetches. -/
theorem C10_suppression_exact_only_witness :
    is_suppressed "UAL123"
      [("UAL", ⟨"", "", some (Timestamp.valid 0), true⟩)] 100 = false ∧
    get_route_from_cache "UAL123"
      [("UAL", ⟨"", "", some (Timestamp.valid 0), true⟩)] 100 7
      = ("", "", true) ∧
    is_suppressed "UAL"
      [("UAL", ⟨"", "", some (Timestamp.valid 0), true⟩)] 100 = true ∧
    (resolve_step "UAL123"
      [("UAL", ⟨"", "", some (Timestamp.valid 0), true⟩)] 100 7 "a1b2c3" true
      ("", "")).fetched = true :=
  C10_suppression_exact_only
    [("UAL", ⟨"", "", some (Timestamp.valid 0), true⟩)] "UAL123" "a1b2c3"
    100 7 0 ⟨"", "", some (Timestamp.valid 0), true⟩ ("", "")
    (by decide) (by decide) (by decide) (by decide) (by decide) (by decide)
    (by decide) (by decide) (by decide) (by decide)
